import Mathlib

/-!
Verification of the viralcn AI-orchestration/audit pipeline.

This file is a shallow embedding of the TypeScript service module
(`geminiService`) and of the generation/re-audit handlers of the
generation tab component, together with theorems settling the frozen
claims about that pipeline.

Modelling conventions:
* Every provider round trip is an explicit oracle argument: a function
  from the request the code assembles to the outcome of the call
  (`Except` an error message, or a response carrying an optional text
  payload, mirroring the SDK's `response.text : string | undefined`).
* JavaScript string builtins used by the code (`trim`, `split`,
  `replace`, `substring`, truthy `||` defaulting) are modelled by
  executable structural definitions so concrete runs reduce by `rfl`.
* `JSON.parse` is modelled by an executable recursive-descent reader
  `jsonParse` over the character list; its numbers are restricted to
  integers (every score in this system is integral) and `\u` escapes
  are not covered.  The TypeScript `as AuditScore` cast is a no-op at
  run time, so the audit result is modelled as the raw parsed value.
-/

namespace ViralCN

/-! ## Data model (`types.ts`) -/

/-- Niche enumeration; the string values of the TS enum are produced by
`nicheStr` below. -/
inductive NicheType where
  | BEAUTY | FOOD | FASHION | TRAVEL | READING | GROWTH | RELATIONSHIPS | OTHER
deriving DecidableEq

/-- String value of the TS `NicheType` enum member. -/
def nicheStr : NicheType → String
  | .BEAUTY => "美妆博主"
  | .FOOD => "美食博主"
  | .FASHION => "时尚博主"
  | .TRAVEL => "旅行博主"
  | .READING => "读书博主"
  | .GROWTH => "个人成长博主"
  | .RELATIONSHIPS => "两性恋爱博主"
  | .OTHER => "其他"

/-- Platform enumeration; string values via `platformStr`. -/
inductive PlatformType where
  | XIAOHONGSHU | WECHAT_MOMENTS | DOUYIN | TIKTOK | INSTAGRAM | X
deriving DecidableEq, BEq

/-- String value of the TS `PlatformType` enum member. -/
def platformStr : PlatformType → String
  | .XIAOHONGSHU => "小红书"
  | .WECHAT_MOMENTS => "朋友圈"
  | .DOUYIN => "抖音"
  | .TIKTOK => "TikTok"
  | .INSTAGRAM => "Instagram"
  | .X => "X (Twitter)"

/-- The `aiProvider` union type `'gemini' | 'deepseek' | 'qwen'`. -/
inductive AIProvider where
  | gemini | deepseek | qwen
deriving DecidableEq

/-- A captured idea fragment. -/
structure Thought where
  id : String
  content : String
  tags : List String
  createdAt : Nat

/-- Process-wide settings. -/
structure GlobalSettings where
  niche : NicheType
  styleDescription : String
  customApiKey : Option String
  aiProvider : Option AIProvider

/-- The `styleMode` union `'manual' | 'auto'`. -/
inductive StyleMode where
  | manual | auto
deriving DecidableEq

/-- Immutable per-request configuration snapshot. -/
structure GenerationConfig extends GlobalSettings where
  platform : PlatformType
  refUrl : String
  selectedThoughtIds : List String
  styleMode : StyleMode
  withImage : Bool

/-! ## JavaScript semantics helpers -/

/-- JS `x || d` for an optional string `x`: `undefined` and the empty
string are falsy and give the default. -/
def jsOr (x : Option String) (d : String) : String :=
  match x with
  | some s => if s = "" then d else s
  | none => d

/-- Characters removed by JS `String.prototype.trim` (the whitespace
actually occurring in this pipeline's data). -/
def jsTrimWs (c : Char) : Bool :=
  c = ' ' || c = '\n' || c = '\t' || c = '\r' || c = '\x0b' || c = '\x0c'

/-- Drop leading trim-whitespace from a character list. -/
def dropLeadWs : List Char → List Char
  | [] => []
  | c :: cs => if jsTrimWs c then dropLeadWs cs else c :: cs

/-- JS `s.trim()`. -/
def jsTrim (s : String) : String :=
  String.mk ((dropLeadWs (dropLeadWs s.data.reverse).reverse))

/-- JS `s.substring(0, n)` (counted in characters rather than UTF-16
units; identical on the BMP text this system handles). -/
def jsSubstring (s : String) (n : Nat) : String :=
  String.mk (s.data.take n)

/-- Worker for `splitComma`: `acc` holds the current piece reversed. -/
def splitCommaAux : List Char → List Char → List String
  | [], acc => [String.mk acc.reverse]
  | c :: cs, acc =>
    if c = ',' then String.mk acc.reverse :: splitCommaAux cs []
    else splitCommaAux cs (c :: acc)

/-- JS `s.split(',')`: every comma separates, empty pieces are kept and
the empty string yields `[""]`. -/
def splitComma (s : String) : List String :=
  splitCommaAux s.data []

/-- JS `s.replace(/，/g, ',')`: pattern and replacement are single
characters, so a character-wise map is exact. -/
def replaceCnComma (s : String) : String :=
  String.mk (s.data.map (fun c => if c = '，' then ',' else c))

/-! ## JSON values and `JSON.parse` -/

/-- JSON values as JavaScript sees them after `JSON.parse`.  Numbers are
restricted to integers: all scores in this system are integral and the
model rejects fractional payloads. -/
inductive Js where
  | null : Js
  | bool : Bool → Js
  | num : Int → Js
  | str : String → Js
  | arr : List Js → Js
  | obj : List (String × Js) → Js

/-- JS property access `v[key]` on a parsed value: `none` stands for
`undefined`.  With duplicate keys `JSON.parse` keeps the last binding. -/
def jsGet (v : Js) (key : String) : Option Js :=
  match v with
  | .obj fields => ((fields.reverse.find? (fun kv => kv.1 == key)).map (fun kv => kv.2))
  | _ => none

/-- Unescape the character after a backslash in a JSON string. -/
def escChar (e : Char) : Option Char :=
  if e = 'n' then some '\n'
  else if e = 't' then some '\t'
  else if e = 'r' then some '\r'
  else if e = '"' || e = '\\' || e = '/' then some e
  else if e = 'b' then some (Char.ofNat 8)
  else if e = 'f' then some (Char.ofNat 12)
  else none

/-- Read a JSON string body after the opening quote; returns the
decoded characters and the remainder after the closing quote. -/
def readStr : List Char → Option (List Char × List Char)
  | [] => none
  | '"' :: rest => some ([], rest)
  | '\\' :: e :: rest => do
    let c ← escChar e
    let (s, r) ← readStr rest
    pure (c :: s, r)
  | c :: rest => do
    let (s, r) ← readStr rest
    pure (c :: s, r)

/-- JSON insignificant whitespace. -/
def jsonWs (c : Char) : Bool :=
  c = ' ' || c = '\n' || c = '\t' || c = '\r'

/-- Skip JSON insignificant whitespace. -/
def skipWs (cs : List Char) : List Char :=
  cs.dropWhile jsonWs

/-- Decimal value of a digit run, accumulator style. -/
def digitsAcc : List Char → Nat → Nat
  | [], n => n
  | c :: cs, n => digitsAcc cs (10 * n + (c.toNat - 48))

/-- Does the remainder announce a fractional or exponent part (which
this integral model rejects)? -/
def startsFrac : List Char → Bool
  | c :: _ => c = '.' || c = 'e' || c = 'E'
  | [] => false

/-- Read an unsigned digit run as a number, rejecting fractions. -/
def readDigitsPart (cs : List Char) : Option (Nat × List Char) :=
  let ds := cs.takeWhile Char.isDigit
  if ds.isEmpty then none
  else
    let rest := cs.dropWhile Char.isDigit
    if startsFrac rest then none else some (digitsAcc ds 0, rest)

/-- Read a JSON integer (optional minus, digit run; no fraction). -/
def readNum : List Char → Option (Int × List Char)
  | '-' :: cs => (readDigitsPart cs).map (fun p => (-(p.1 : Int), p.2))
  | cs => (readDigitsPart cs).map (fun p => ((p.1 : Int), p.2))

/-- Strip a literal keyword such as `null` from the front of the
input. -/
def stripLit (tok : String) (cs : List Char) : Option (List Char) :=
  if tok.data.isPrefixOf cs then some (cs.drop tok.length) else none

mutual

/-- Read one JSON value (fuelled; fuel is structural so runs reduce). -/
def readVal : Nat → List Char → Option (Js × List Char)
  | 0, _ => none
  | fuel + 1, cs0 =>
    match skipWs cs0 with
    | '"' :: r => (readStr r).map (fun sr => (Js.str (String.mk sr.1), sr.2))
    | '[' :: r =>
      (match skipWs r with
       | ']' :: r2 => some (Js.arr [], r2)
       | cs2 => (readElems fuel cs2).map (fun er => (Js.arr er.1, er.2)))
    | '\x7b' :: r =>
      (match skipWs r with
       | '\x7d' :: r2 => some (Js.obj [], r2)
       | cs2 => (readMems fuel cs2).map (fun mr => (Js.obj mr.1, mr.2)))
    | cs =>
      ((stripLit "null" cs).map (fun r => (Js.null, r)))
        <|> ((stripLit "true" cs).map (fun r => (Js.bool true, r)))
        <|> ((stripLit "false" cs).map (fun r => (Js.bool false, r)))
        <|> ((readNum cs).map (fun nr => (Js.num nr.1, nr.2)))

/-- Read one-or-more comma-separated array elements up to `]`. -/
def readElems : Nat → List Char → Option (List Js × List Char)
  | 0, _ => none
  | fuel + 1, cs => do
    let (v, r) ← readVal fuel cs
    match skipWs r with
    | ',' :: r2 => do
      let (vs, r3) ← readElems fuel r2
      pure (v :: vs, r3)
    | ']' :: r2 => pure ([v], r2)
    | _ => none

/-- Read one-or-more comma-separated object members up to the closing
brace. -/
def readMems : Nat → List Char → Option (List (String × Js) × List Char)
  | 0, _ => none
  | fuel + 1, cs =>
    match skipWs cs with
    | '"' :: r => do
      let (k, r1) ← readStr r
      match skipWs r1 with
      | ':' :: r2 => do
        let (v, r3) ← readVal fuel r2
        match skipWs r3 with
        | ',' :: r4 => do
          let (ms, r5) ← readMems fuel r4
          pure ((String.mk k, v) :: ms, r5)
        | '\x7d' :: r4 => pure ([(String.mk k, v)], r4)
        | _ => none
      | _ => none
    | _ => none

end

/-- Model of `JSON.parse`: `none` when the call would throw. -/
def jsonParse (s : String) : Option Js :=
  match readVal (2 * s.length + 2) s.data with
  | some (v, rest) => if skipWs rest = [] then some v else none
  | none => none

/-! ## Provider client adapter -/

/-- Which backend a call is routed to. -/
inductive Backend where
  | gemini | deepseek | qwen
deriving DecidableEq

/-- The request a service function assembles before the round trip:
backend, endpoint (alternate providers only), model name, the separate
system-instruction channel (also standing for the system message of the
OpenAI-style body), the user prompt, and the Gemini-only tuning knobs.
The audit call's `responseMimeType`/`responseSchema` configuration and
the credential handling (`customApiKey || process.env.API_KEY`) are not
modelled: no claim depends on them. -/
structure Request where
  backend : Backend
  baseURL : Option String
  model : String
  systemInstruction : Option String
  contents : String
  thinkingBudget : Option Nat
  aspectRatio : Option String

/-- Outcome oracle for a text-model round trip: the error thrown, or a
response whose `.text` may be `undefined` (`none`). -/
def Oracle := Request → Except String (Option String)

/-- A content part of a Gemini image response; `inlineData` holds the
base64 payload when present. -/
structure Part where
  inlineData : Option String

/-- Outcome oracle for the image-model round trip, already collapsed
along the `response.candidates?.[0]?.content?.parts || []` optional
chain of the source. -/
def ImageOracle := Request → Except String (List Part)

/-- An HTTP response as `callOpenAICompatible` observes it: `ok` is the
2xx flag, `status` the code, `body` the raw text (also what
`response.json()` re-reads). -/
structure HttpResponse where
  ok : Bool
  status : Nat
  body : String

/-- The `data.choices?.[0]?.message?.content` path over the parsed
body; `none` stands for `undefined` anywhere along the chain (the model
honours only a string payload, as the API types promise). -/
def openAIContent (data : Js) : Option String :=
  match jsGet data "choices" with
  | some (.arr (c :: _)) =>
    (match jsGet c "message" with
     | some m =>
       (match jsGet m "content" with
        | some (.str s) => some s
        | _ => none)
     | none => none)
  | _ => none

/-- Embedding of `callOpenAICompatible` (source lines 11-47) applied to
the outcome of `fetch`: a rejected fetch is rethrown; a non-2xx
response logs the body and throws an error carrying only the status; a
2xx response is read as JSON (a parse rejection is rethrown, its
engine-specific message modelled by a fixed sentence) and the content
path is returned with `|| ""` defaulting. -/
def callOpenAICompatible (fetchResult : Except String HttpResponse) : Except String String :=
  match fetchResult with
  | .error e => .error e
  | .ok response =>
    if !response.ok then
      .error ("API Error: " ++ toString response.status)
    else
      match jsonParse response.body with
      | none => .error "SyntaxError: Unexpected token in JSON"
      | some data => .ok (jsOr (openAIContent data) "")

/-- The request `generateText` (source lines 50-92) assembles:
`deepseek`/`qwen` go to their fixed chat-completion endpoints with the
system/user message pair; anything else is the native Gemini call on
`gemini-3-flash-preview` with the system instruction channel and the
optional thinking budget. -/
def generateTextRequest (systemPrompt userPrompt : String) (aiProvider : Option AIProvider)
    (thinkingBudget : Option Nat) : Request :=
  match aiProvider.getD .gemini with
  | .deepseek =>
    { backend := .deepseek
      baseURL := some "https://api.deepseek.com/chat/completions"
      model := "deepseek-chat"
      systemInstruction := some systemPrompt
      contents := userPrompt
      thinkingBudget := none
      aspectRatio := none }
  | .qwen =>
    { backend := .qwen
      baseURL := some "https://dashscope.aliyuncs.com/compatible-mode/v1/chat/completions"
      model := "qwen-plus"
      systemInstruction := some systemPrompt
      contents := userPrompt
      thinkingBudget := none
      aspectRatio := none }
  | .gemini =>
    { backend := .gemini
      baseURL := none
      model := "gemini-3-flash-preview"
      systemInstruction := some systemPrompt
      contents := userPrompt
      thinkingBudget := thinkingBudget
      aspectRatio := none }

/-- Embedding of the unified `generateText`: one round trip on the
routed request, `response.text || ""` (equally, the adapter's
`content || ""`) on success, the error rethrown otherwise. -/
def generateText (systemPrompt userPrompt : String) (aiProvider : Option AIProvider)
    (thinkingBudget : Option Nat) (oracle : Oracle) : Except String String :=
  match oracle (generateTextRequest systemPrompt userPrompt aiProvider thinkingBudget) with
  | .error e => .error e
  | .ok t => .ok (jsOr t "")

/-! ## Style analysis, tagging, consolidation -/

/-- Request of `analyzeStyleFromText` (source lines 98-109): always the
native Gemini flash model, no system instruction. -/
def analyzeStyleRequest (exampleText : String) : Request :=
  { backend := .gemini
    baseURL := none
    model := "gemini-3-flash-preview"
    systemInstruction := none
    contents :=
      "分析以下文本的写作风格、语气和格式。提供一个简明扼要的中文描述（最多一句话），描述这个人设风格。例如：“理性叙述中融入强烈情感表达”或“幽默风趣的口语化表达”。文本内容: \""
        ++ jsSubstring exampleText 1000 ++ "\""
    thinkingBudget := none
    aspectRatio := none }

/-- Embedding of `analyzeStyleFromText`: any failure is swallowed into
the generic style sentinel, a success with no text falls back to the
neutral description. -/
def analyzeStyleFromText (exampleText : String) (oracle : Oracle) : String :=
  match oracle (analyzeStyleRequest exampleText) with
  | .error _ => "通用专业风格"
  | .ok t => jsOr t "专业且客观的风格"

/-- System prompt of the tagging task (source line 116). -/
def tagSystemPrompt : String :=
  "你是一个助手，负责根据用户输入的文本内容，生成1-3个简短的标签（Tag）。"

/-- User prompt of the tagging task (source lines 117-124). -/
def tagUserPrompt (thoughtContent : String) : String :=
  "请分析以下内容，生成最贴切的1-3个标签（例如：生活、感悟、工作、灵感等）。\n  \n  内容: \""
    ++ jsSubstring thoughtContent 500
    ++ "\"\n  \n  要求:\n  1. 仅返回标签，用逗号分隔。\n  2. 不要包含任何其他解释文字。\n  "

/-- Embedding of `generateTagsForThought` (source lines 111-135): route
through `generateText`; on success normalise the reply (replace the
localized comma, split on the ASCII comma, trim, drop empties, cap at
3); on failure return the sentinel list. -/
def generateTagsForThought (thoughtContent : String) (provider : Option AIProvider)
    (oracle : Oracle) : List String :=
  match generateText tagSystemPrompt (tagUserPrompt thoughtContent) provider none oracle with
  | .error _ => ["通用"]
  | .ok result =>
    (((splitComma (replaceCnComma result)).map jsTrim).filter
      (fun t => decide (0 < t.length))).take 3

/-- Prompt of `smartOrganizeThoughts` (source lines 143-155). -/
def smartOrganizePrompt (thoughts : List Thought) : String :=
  "\n    角色: 资深内容助理。\n    任务: 分析用户提供的所有碎片化想法，识别其中最相关、最具连贯性的主题内容，将它们整合成一段通顺的初步文案草稿。\n    \n    碎片想法列表:\n    "
    ++ String.intercalate "\n" (thoughts.map (fun t => "- " ++ t.content))
    ++ "\n    \n    要求:\n    1. 识别出共同主题或关联性强的想法。\n    2. 剔除明显无关或重复的内容。\n    3. 语言通顺，逻辑连贯，作为一篇文案的基础素材。\n    4. 仅仅返回整理后的文本，不要包含解释。\n  "

/-- Request of `smartOrganizeThoughts`: always the native Gemini flash
model. -/
def smartOrganizeRequest (thoughts : List Thought) : Request :=
  { backend := .gemini
    baseURL := none
    model := "gemini-3-flash-preview"
    systemInstruction := none
    contents := smartOrganizePrompt thoughts
    thinkingBudget := none
    aspectRatio := none }

/-- Embedding of `smartOrganizeThoughts` (source lines 137-167): the
empty fragment list short-circuits before any call; otherwise one
round trip whose failure is rethrown. -/
def smartOrganizeThoughts (thoughts : List Thought) (oracle : Oracle) : Except String String :=
  if thoughts.length = 0 then .ok "暂无碎片想法"
  else
    match oracle (smartOrganizeRequest thoughts) with
    | .error e => .error e
    | .ok t => .ok (jsOr t "")

/-! ## Viral copy generation -/

/-- The tag-annotated rendering of one selected fragment (source line
196). -/
def thoughtLine (t : Thought) : String :=
  "- " ++ t.content ++ " (标签: " ++ String.intercalate ", " t.tags ++ ")"

/-- The fragment branch of the content source (source lines 194-198):
only the selected fragments, annotated and joined. -/
def fragmentSource (selectedThoughtIds : List String) (thoughts : List Thought) : String :=
  "用户碎片想法:\n"
    ++ String.intercalate "\n"
        ((thoughts.filter (fun t => selectedThoughtIds.contains t.id)).map thoughtLine)

/-- Content-source assembly of `generateViralCopy` (source lines
190-199): a base draft whose trimmed text is non-empty wins; otherwise
the selected fragments are used.  `baseContent && baseContent.trim()`
is truthy exactly when the draft is present and not blank. -/
def contentSource (selectedThoughtIds : List String) (thoughts : List Thought)
    (baseContent : Option String) : String :=
  match baseContent with
  | some b =>
    if jsTrim b = "" then fragmentSource selectedThoughtIds thoughts
    else "基础草稿内容 (请基于此内容进行优化和格式化):\n" ++ b
  | none => fragmentSource selectedThoughtIds thoughts

/-- The `[TIKTOK, INSTAGRAM, X].includes(config.platform)` test (source
lines 202-206). -/
def isEnglishPlatform (p : PlatformType) : Bool :=
  [PlatformType.TIKTOK, PlatformType.INSTAGRAM, PlatformType.X].contains p

/-- Target output language by platform (source line 208). -/
def targetLanguage (p : PlatformType) : String :=
  if isEnglishPlatform p then "English" else "简体中文 (Simplified Chinese)"

/-- Platform-specific format brief (source lines 211-233; the `default`
arm of the source switch is unreachable over the closed enum). -/
def formatDesc : PlatformType → String
  | .XIAOHONGSHU => "小红书风格：标题吸引人（含emoji），正文分段清晰，多用emoji，文末加相关话题标签。"
  | .WECHAT_MOMENTS => "朋友圈风格：生活感强，真诚自然，文字精炼，像在和朋友分享，不要过于营销化，不要标题党。"
  | .DOUYIN => "抖音风格：适合口播的短句，节奏感强，黄金三秒原则，引导互动。"
  | .TIKTOK => "TikTok style: Engaging hook, short sentences, trending hashtags, casual tone."
  | .INSTAGRAM => "Instagram style: Aesthetic caption, spacing for readability, relevant hashtags, engaging question."
  | .X => "X (Twitter) style: Concise, witty, thread-friendly if long, impactful statements."

/-- System prompt of `generateViralCopy` (source line 235). -/
def viralSystemPrompt : String := "角色: 你是一位精通社交媒体的爆款文案专家。"

/-- The language requirement line of the user prompt. -/
def langLine (p : PlatformType) : String :=
  "    1. 语言: " ++ targetLanguage p ++ ".\n"

/-- User-prompt text before the language line (source lines 237-246). -/
def viralPromptHead (config : GenerationConfig) (thoughts : List Thought)
    (baseContent : Option String) : String :=
  "\n    任务: 根据提供的内容素材，创作一篇容易产生爆款潜质的社交媒体文案。\n    \n    上下文信息:\n    - 目标平台: "
    ++ platformStr config.platform
    ++ "\n    - 账号定位: " ++ nicheStr config.niche
    ++ "\n    - 内容来源:\n    "
    ++ contentSource config.selectedThoughtIds thoughts baseContent
    ++ "\n    "
    ++ (if config.refUrl = "" then "" else "- 参考链接/内容: " ++ config.refUrl)
    ++ "\n    - 期望风格: " ++ config.styleDescription
    ++ "\n    \n    要求:\n"

/-- User-prompt text after the language line (source lines 249-255). -/
def viralPromptTail (config : GenerationConfig) : String :=
  "    2. 格式: " ++ formatDesc config.platform
    ++ "\n    3. 字数: 800字以内。\n    4. 结构: 必须包含 吸引人的标题 (Headline) 和 正文 (Body) (朋友圈除外，朋友圈通常无明确标题，但第一句要吸引人)。\n    5. 语气: 必须严格贴合\""
    ++ config.styleDescription
    ++ "\"的风格描述。\n    \n    输出: 仅输出文案内容，不要包含任何markdown代码块标记。\n  "

/-- The full user prompt of `generateViralCopy` (source lines 236-255);
split at the language line only to name the pieces, their concatenation
is the verbatim template text. -/
def viralUserPrompt (config : GenerationConfig) (thoughts : List Thought)
    (baseContent : Option String) : String :=
  viralPromptHead config thoughts baseContent ++ langLine config.platform
    ++ viralPromptTail config

/-- The request `generateViralCopy` issues (source lines 257-275): the
primary provider (explicitly `gemini` or absent) uses the native call
on `gemini-3-pro-preview` with a fixed thinking budget of 1024; any
other configured provider goes through the unified adapter routing. -/
def viralCopyRequest (config : GenerationConfig) (thoughts : List Thought)
    (baseContent : Option String) : Request :=
  if config.aiProvider = some .gemini ∨ config.aiProvider = none then
    { backend := .gemini
      baseURL := none
      model := "gemini-3-pro-preview"
      systemInstruction := some viralSystemPrompt
      contents := viralUserPrompt config thoughts baseContent
      thinkingBudget := some 1024
      aspectRatio := none }
  else
    generateTextRequest viralSystemPrompt (viralUserPrompt config thoughts baseContent)
      config.aiProvider none

/-- Embedding of `generateViralCopy` (source lines 183-276): one round
trip on the routed request; `response.text || ""` on success, the
provider error propagated otherwise. -/
def generateViralCopy (config : GenerationConfig) (thoughts : List Thought)
    (baseContent : Option String) (oracle : Oracle) : Except String String :=
  match oracle (viralCopyRequest config thoughts baseContent) with
  | .error e => .error e
  | .ok t => .ok (jsOr t "")

/-! ## Audit engine -/

/-- Prompt of `auditCopyContent` (source lines 281-287). -/
def auditPrompt (content : String) (platform : PlatformType) : String :=
  "\n    作为资深内容运营，请分析以下" ++ platformStr platform
    ++ "文案。\n    返回一个JSON对象，包含各项评分（0-100分），文案优点，优化建议，以及潜在敏感词。\n    \n    文案内容:\n    "
    ++ content ++ "\n  "

/-- The audit request: always the native Gemini flash model (the
schema-constrained JSON response configuration is not modelled). -/
def auditRequest (content : String) (platform : PlatformType) : Request :=
  { backend := .gemini
    baseURL := none
    model := "gemini-3-flash-preview"
    systemInstruction := none
    contents := auditPrompt content platform
    thinkingBudget := none
    aspectRatio := none }

/-- The degraded fallback object of the audit engine (source lines
317-320). -/
def auditFallback : Js :=
  .obj [("headline", .num 0), ("quality", .num 0), ("emotion", .num 0),
        ("trending", .num 0), ("viralPotential", .num 0), ("overall", .num 0),
        ("suggestions", .arr [.str "分析失败"]), ("pros", .arr []),
        ("sensitiveWords", .arr [])]

/-- Embedding of `auditCopyContent` (source lines 278-322): one round
trip; `JSON.parse(response.text || "\x7b\x7d")` on success, the parsed
value returned through the run-time no-op `as AuditScore` cast; the
fallback object on a thrown provider error or parse error.  Total by
construction: it never raises to the caller. -/
def auditCopyContent (content : String) (platform : PlatformType) (oracle : Oracle) : Js :=
  match oracle (auditRequest content platform) with
  | .error _ => auditFallback
  | .ok t =>
    match jsonParse (jsOr t "\x7b\x7d") with
    | none => auditFallback
    | some v => v

/-! ## Image synthesis adapter -/

/-- The image-prompt derivation request (source lines 327-330). -/
def imagePromptRequest (copyText : String) (niche : NicheType) : Request :=
  { backend := .gemini
    baseURL := none
    model := "gemini-3-flash-preview"
    systemInstruction := none
    contents :=
      "Based on this social media post, create a high-quality English image generation prompt for a lifestyle cover image suitable for "
        ++ nicheStr niche ++ ". Post content: \"" ++ jsSubstring copyText 300 ++ "...\""
    thinkingBudget := none
    aspectRatio := none }

/-- The image-model request (source lines 335-345): fixed portrait
aspect ratio. -/
def imageRequest (imagePrompt : String) : Request :=
  { backend := .gemini
    baseURL := none
    model := "gemini-2.5-flash-image"
    systemInstruction := none
    contents := imagePrompt
    thinkingBudget := none
    aspectRatio := some "3:4" }

/-- Embedding of `generateImageForCopy` (source lines 324-357): derive
an image prompt (that first call is outside the try, so its failure
propagates; an empty reply falls back to the generic templated prompt),
call the image model, scan the parts for the first inline payload and
wrap it as a data URI; with no payload throw `"No image data found"`.
The catch only logs and rethrows. -/
def generateImageForCopy (copyText : String) (niche : NicheType) (oracle : Oracle)
    (imageOracle : ImageOracle) : Except String String :=
  match oracle (imagePromptRequest copyText niche) with
  | .error e => .error e
  | .ok t =>
    let imagePrompt := jsOr t ("A high quality aesthetic photo for " ++ nicheStr niche)
    match imageOracle (imageRequest imagePrompt) with
    | .error e => .error e
    | .ok parts =>
      match parts.findSome? (fun p => p.inlineData) with
      | some d => .ok ("data:image/png;base64," ++ d)
      | none => .error "No image data found"

/-! ## Generation orchestrator and re-audit (generation tab component) -/

/-- A finished generation record. The `audit` field is the raw value the
audit engine hands back (the TS cast is a run-time no-op). -/
structure GeneratedCopy where
  id : String
  config : GenerationConfig
  content : String
  audit : Js
  imageUrl : Option String
  createdAt : Nat

/-- The try-block of `handleGenerate` (source lines 74-116): build the
config snapshot, generate copy (fatal on failure), optionally
synthesise an image in an inner try that swallows its error, audit the
copy (total), and assemble the record.  The fresh `crypto.randomUUID()`
and `Date.now()` are the `newId`/`now` arguments. -/
def handleGenerateResult (globalSettings : GlobalSettings) (platform : PlatformType)
    (refUrl : String) (withImage : Bool) (selectedThoughtIds : List String)
    (thoughts : List Thought) (previewContent : String)
    (oracle : Oracle) (imageOracle : ImageOracle)
    (newId : String) (now : Nat) : Except String GeneratedCopy :=
  let fullConfig : GenerationConfig :=
    { toGlobalSettings := globalSettings
      platform := platform
      refUrl := refUrl
      selectedThoughtIds := selectedThoughtIds
      styleMode := .manual
      withImage := withImage }
  match generateViralCopy fullConfig thoughts (some previewContent) oracle with
  | .error e => .error e
  | .ok content =>
    let imageUrl : Option String :=
      if withImage then
        match generateImageForCopy content globalSettings.niche oracle imageOracle with
        | .ok url => some url
        | .error _ => none
      else none
    .ok { id := newId
          config := fullConfig
          content := content
          audit := auditCopyContent content platform oracle
          imageUrl := imageUrl
          createdAt := now }

/-- `handleGenerate` including its outer catch (source lines 117-121):
a fatal failure surfaces as the retry alert and leaves `currentCopy`
untouched; success installs the new record. -/
def handleGenerate (globalSettings : GlobalSettings) (platform : PlatformType)
    (refUrl : String) (withImage : Bool) (selectedThoughtIds : List String)
    (thoughts : List Thought) (previewContent : String)
    (oracle : Oracle) (imageOracle : ImageOracle)
    (newId : String) (now : Nat) (currentCopy : Option GeneratedCopy) : Option GeneratedCopy :=
  match handleGenerateResult globalSettings platform refUrl withImage selectedThoughtIds
      thoughts previewContent oracle imageOracle newId now with
  | .ok newCopy => some newCopy
  | .error _ => currentCopy

/-- Embedding of `handleReAudit` (source lines 124-140): a no-op with
no current record; otherwise re-invoke only the audit on the edited
text (the audit never throws, so the catch is dead) and replace
`content` and `audit` together in the existing record. -/
def handleReAudit (currentCopy : Option GeneratedCopy) (editedResult : String)
    (platform : PlatformType) (oracle : Oracle) : Option GeneratedCopy :=
  match currentCopy with
  | none => none
  | some c =>
    some { c with content := editedResult, audit := auditCopyContent editedResult platform oracle }

/-! ## Specification predicates -/

/-- Does `key` hold an integral score within 0-100? -/
def scoreFieldOk (v : Js) (key : String) : Bool :=
  match jsGet v key with
  | some (.num n) => decide (0 ≤ n ∧ n ≤ 100)
  | _ => false

/-- Does `key` hold a list of strings? -/
def stringListFieldOk (v : Js) (key : String) : Bool :=
  match jsGet v key with
  | some (.arr xs) => xs.all (fun x => match x with | .str _ => true | _ => false)
  | _ => false

/-- The declared AuditScore shape: all six numeric fields integral and
in range, and all nine fields present with their declared types. -/
def auditScoreWF (v : Js) : Bool :=
  scoreFieldOk v "headline" && scoreFieldOk v "quality" && scoreFieldOk v "emotion"
    && scoreFieldOk v "trending" && scoreFieldOk v "viralPotential" && scoreFieldOk v "overall"
    && stringListFieldOk v "suggestions" && stringListFieldOk v "pros"
    && stringListFieldOk v "sensitiveWords"

/-! ## Claim C1: audit error handling -/

/-- C1 (amended): `auditCopyContent` never raises — it is total by
construction — and returns the defined fallback object (all six scores
0, the single failure suggestion, empty pros and sensitive words)
exactly on a thrown provider error or a JSON parse failure of the
returned text; a text that parses is returned as the parsed object
unvalidated, even when required AuditScore fields are missing. -/
theorem audit_never_raises_fallback_policy (content : String) (platform : PlatformType)
    (oracle : Oracle) :
    (∀ e, oracle (auditRequest content platform) = .error e →
      auditCopyContent content platform oracle = auditFallback)
      ∧ (∀ t, oracle (auditRequest content platform) = .ok t →
          jsonParse (jsOr t "\x7b\x7d") = none →
          auditCopyContent content platform oracle = auditFallback)
      ∧ (∀ t v, oracle (auditRequest content platform) = .ok t →
          jsonParse (jsOr t "\x7b\x7d") = some v →
          auditCopyContent content platform oracle = v) :=
  ⟨fun _ h => by simp [auditCopyContent, h],
   fun _ h hp => by simp [auditCopyContent, h, hp],
   fun _ _ h hp => by simp [auditCopyContent, h, hp]⟩

/-- C1 counterexample: a successful call whose text is `"\x7b\x7d"`
parses to the empty object — every required AuditScore field is missing
— yet the code returns that empty object, not the fallback the claim
promises. -/
theorem audit_missing_fields_kept :
    auditCopyContent "测试文案" .XIAOHONGSHU (fun _ => .ok (some "\x7b\x7d")) = Js.obj []
      ∧ Js.obj [] ≠ auditFallback
      ∧ jsGet (Js.obj []) "headline" = none :=
  ⟨rfl, fun h => by simp [auditFallback] at h, rfl⟩

/-- C1 witness: the three branches of the fallback policy at concrete
inputs — provider error, unparsable text, and a parsed object passed
through untouched. -/
theorem audit_fallback_policy_witness :
    auditCopyContent "你好" .DOUYIN (fun _ => .error "network down") = auditFallback
      ∧ auditCopyContent "你好" .DOUYIN (fun _ => .ok (some "not json")) = auditFallback
      ∧ auditCopyContent "你好" .DOUYIN (fun _ => .ok (some "\x7b\"overall\":88\x7d"))
          = Js.obj [("overall", Js.num 88)] :=
  ⟨(audit_never_raises_fallback_policy "你好" .DOUYIN
      (fun _ => .error "network down")).1 "network down" rfl,
   (audit_never_raises_fallback_policy "你好" .DOUYIN
      (fun _ => .ok (some "not json"))).2.1 (some "not json") rfl rfl,
   (audit_never_raises_fallback_policy "你好" .DOUYIN
      (fun _ => .ok (some "\x7b\"overall\":88\x7d"))).2.2
     (some "\x7b\"overall\":88\x7d") (Js.obj [("overall", Js.num 88)]) rfl rfl⟩

/-! ## Claim C9: AuditScore shape invariant -/

/-- C9 (amended): the fallback AuditScore satisfies the declared shape
(all six numeric fields integral in 0-100, all nine fields present);
but a successful audit returns the provider's parsed JSON verbatim with
no range or presence validation, so every produced value is either the
well-formed fallback or exactly the parsed object, whose shape is only
as good as the provider's schema compliance. -/
theorem audit_score_shape (content : String) (platform : PlatformType) (oracle : Oracle) :
    auditScoreWF auditFallback = true
      ∧ (auditCopyContent content platform oracle = auditFallback
          ∨ ∃ t v, oracle (auditRequest content platform) = .ok t
              ∧ jsonParse (jsOr t "\x7b\x7d") = some v
              ∧ auditCopyContent content platform oracle = v) := by
  refine ⟨by decide, ?_⟩
  cases h : oracle (auditRequest content platform) with
  | error e => exact Or.inl (by simp [auditCopyContent, h])
  | ok t =>
    cases hp : jsonParse (jsOr t "\x7b\x7d") with
    | none => exact Or.inl (by simp [auditCopyContent, h, hp])
    | some v => exact Or.inr ⟨t, v, rfl, hp, by simp [auditCopyContent, h, hp]⟩

/-- C9 counterexample: a provider reply scoring the headline at 150
with every other field missing is returned verbatim by the audit
engine, violating both the 0-100 range and the nine-field presence the
claim asserts for every produced AuditScore. -/
theorem audit_out_of_range_kept :
    auditCopyContent "文案" .XIAOHONGSHU (fun _ => .ok (some "\x7b\"headline\":150\x7d"))
        = Js.obj [("headline", Js.num 150)]
      ∧ auditScoreWF (Js.obj [("headline", Js.num 150)]) = false :=
  ⟨rfl, by decide⟩

/-! ## Claim C2: tagging bounds and sentinel -/

/-- C2 (amended): for every fragment text and provider behaviour the
tag list has at most 3 labels and every label is non-empty; it has at
least 1 label when some comma-separated token of the reply is non-blank
— the guarantee of at least one label does not hold for every reply
(the empty reply yields no labels) — and on provider failure the result
is exactly the sentinel list. -/
theorem tags_bounds_and_sentinel (content : String) (provider : Option AIProvider)
    (oracle : Oracle) :
    (generateTagsForThought content provider oracle).length ≤ 3
      ∧ (∀ t ∈ generateTagsForThought content provider oracle, 0 < t.length)
      ∧ (∀ e, oracle (generateTextRequest tagSystemPrompt (tagUserPrompt content)
            provider none) = .error e →
          generateTagsForThought content provider oracle = ["通用"])
      ∧ (∀ r, oracle (generateTextRequest tagSystemPrompt (tagUserPrompt content)
            provider none) = .ok r →
          (∃ tok ∈ splitComma (replaceCnComma (jsOr r "")), 0 < (jsTrim tok).length) →
          0 < (generateTagsForThought content provider oracle).length) := by
  refine ⟨?_, ?_, fun e h => ?_, fun r h hex => ?_⟩
  · cases h : oracle (generateTextRequest tagSystemPrompt (tagUserPrompt content)
        provider none) with
    | error e => simp [generateTagsForThought, generateText, h]
    | ok r =>
      simp only [generateTagsForThought, generateText, h]
      rw [List.length_take]
      omega
  · intro t ht
    revert ht
    cases h : oracle (generateTextRequest tagSystemPrompt (tagUserPrompt content)
        provider none) with
    | error e =>
      simp only [generateTagsForThought, generateText, h]
      intro ht
      rw [List.mem_singleton.mp ht]
      decide
    | ok r =>
      simp only [generateTagsForThought, generateText, h]
      intro ht
      have hf := List.mem_of_mem_take ht
      have := List.of_mem_filter hf
      exact of_decide_eq_true this
  · simp [generateTagsForThought, generateText, h]
  · obtain ⟨tok, hmem, hlen⟩ := hex
    simp only [generateTagsForThought, generateText, h]
    have hmap : jsTrim tok ∈ (splitComma (replaceCnComma (jsOr r ""))).map jsTrim :=
      List.mem_map_of_mem jsTrim hmem
    have hfil : jsTrim tok ∈ ((splitComma (replaceCnComma (jsOr r ""))).map jsTrim).filter
        (fun t => decide (0 < t.length)) :=
      List.mem_filter.mpr ⟨hmap, decide_eq_true hlen⟩
    have hpos := List.length_pos_of_mem hfil
    rw [List.length_take]
    omega

/-- C2 counterexample: at the spec's own scenario fragment, a provider
reply carrying the empty string yields the empty tag list — zero
labels, below the 1-to-3 band the claim asserts for every text. -/
theorem tags_empty_reply_no_labels :
    generateTagsForThought "今天学会了做意面" none (fun _ => .ok (some "")) = []
      ∧ (generateTagsForThought "今天学会了做意面" none (fun _ => .ok (some ""))).length = 0 :=
  ⟨rfl, rfl⟩

/-- C2 witness: the sentinel branch on a failing provider, and a reply
with a non-blank token producing at least one label. -/
theorem tags_bounds_witness :
    generateTagsForThought "做意面" none (fun _ => .error "provider down") = ["通用"]
      ∧ 0 < (generateTagsForThought "做意面" (some .deepseek)
          (fun _ => .ok (some "美食，生活"))).length :=
  ⟨(tags_bounds_and_sentinel "做意面" none (fun _ => .error "provider down")).2.2.1
      "provider down" rfl,
   (tags_bounds_and_sentinel "做意面" (some .deepseek)
      (fun _ => .ok (some "美食，生活"))).2.2.2 (some "美食，生活") rfl
     ⟨"美食", by decide, by decide⟩⟩

/-! ## Claim C3: copy-generation failure is fatal to the cycle -/

/-- C3: when the copy-generation round trip fails, `generateViralCopy`
propagates the error, the orchestrator's try-block ends in that same
error with no GeneratedCopy — not even a partial one — and the handler
leaves the installed record exactly as it was. -/
theorem copy_failure_fatal (globalSettings : GlobalSettings) (platform : PlatformType)
    (refUrl : String) (withImage : Bool) (selectedThoughtIds : List String)
    (thoughts : List Thought) (previewContent : String) (oracle : Oracle)
    (imageOracle : ImageOracle) (newId : String) (now : Nat)
    (currentCopy : Option GeneratedCopy) (e : String)
    (h : oracle (viralCopyRequest
        { toGlobalSettings := globalSettings, platform := platform, refUrl := refUrl,
          selectedThoughtIds := selectedThoughtIds, styleMode := .manual,
          withImage := withImage } thoughts (some previewContent)) = .error e) :
    generateViralCopy
        { toGlobalSettings := globalSettings, platform := platform, refUrl := refUrl,
          selectedThoughtIds := selectedThoughtIds, styleMode := .manual,
          withImage := withImage } thoughts (some previewContent) oracle = .error e
      ∧ handleGenerateResult globalSettings platform refUrl withImage selectedThoughtIds
          thoughts previewContent oracle imageOracle newId now = .error e
      ∧ handleGenerate globalSettings platform refUrl withImage selectedThoughtIds
          thoughts previewContent oracle imageOracle newId now currentCopy = currentCopy :=
  ⟨by simp [generateViralCopy, h],
   by simp [handleGenerateResult, generateViralCopy, h],
   by simp [handleGenerate, handleGenerateResult, generateViralCopy, h]⟩

/-- C3 witness: a concrete failing copy-generation call aborts the
cycle with that error and installs nothing. -/
theorem copy_failure_fatal_witness :
    handleGenerateResult ⟨.FOOD, "真诚自然", none, none⟩ .XIAOHONGSHU "" false []
        [] "一段预览" (fun _ => .error "quota exceeded") (fun _ => .ok [])
        "id-1" 42 = .error "quota exceeded"
      ∧ handleGenerate ⟨.FOOD, "真诚自然", none, none⟩ .XIAOHONGSHU "" false []
          [] "一段预览" (fun _ => .error "quota exceeded") (fun _ => .ok [])
          "id-1" 42 none = none :=
  ⟨(copy_failure_fatal ⟨.FOOD, "真诚自然", none, none⟩ .XIAOHONGSHU "" false []
      [] "一段预览" (fun _ => .error "quota exceeded") (fun _ => .ok [])
      "id-1" 42 none "quota exceeded" rfl).2.1,
   (copy_failure_fatal ⟨.FOOD, "真诚自然", none, none⟩ .XIAOHONGSHU "" false []
      [] "一段预览" (fun _ => .error "quota exceeded") (fun _ => .ok [])
      "id-1" 42 none "quota exceeded" rfl).2.2⟩

/-! ## Claim C4: image failure is non-fatal -/

/-- C4: the image step raises `"No image data found"` whenever the
image response carries no inline binary payload; with `withImage` true
the orchestrator swallows any image-step error and still completes the
record with no `imageUrl`; with `withImage` false the record never has
an image. -/
theorem image_failure_nonfatal (gs : GlobalSettings) (platform : PlatformType)
    (refUrl : String) (selectedThoughtIds : List String) (thoughts : List Thought)
    (previewContent : String) (oracle : Oracle) (imageOracle : ImageOracle)
    (newId : String) (now : Nat) :
    (∀ copyText niche t, oracle (imagePromptRequest copyText niche) = .ok t →
      ∀ parts, imageOracle (imageRequest
          (jsOr t ("A high quality aesthetic photo for " ++ nicheStr niche))) = .ok parts →
        (∀ p ∈ parts, p.inlineData = none) →
        generateImageForCopy copyText niche oracle imageOracle = .error "No image data found")
      ∧ (∀ t, oracle (viralCopyRequest
            { toGlobalSettings := gs, platform := platform, refUrl := refUrl,
              selectedThoughtIds := selectedThoughtIds, styleMode := .manual,
              withImage := true } thoughts (some previewContent)) = .ok t →
          ∀ e, generateImageForCopy (jsOr t "") gs.niche oracle imageOracle = .error e →
          handleGenerateResult gs platform refUrl true selectedThoughtIds thoughts
              previewContent oracle imageOracle newId now
            = .ok { id := newId
                    config := { toGlobalSettings := gs, platform := platform,
                                refUrl := refUrl,
                                selectedThoughtIds := selectedThoughtIds,
                                styleMode := .manual, withImage := true }
                    content := jsOr t ""
                    audit := auditCopyContent (jsOr t "") platform oracle
                    imageUrl := none
                    createdAt := now })
      ∧ (∀ t, oracle (viralCopyRequest
            { toGlobalSettings := gs, platform := platform, refUrl := refUrl,
              selectedThoughtIds := selectedThoughtIds, styleMode := .manual,
              withImage := false } thoughts (some previewContent)) = .ok t →
          handleGenerateResult gs platform refUrl false selectedThoughtIds thoughts
              previewContent oracle imageOracle newId now
            = .ok { id := newId
                    config := { toGlobalSettings := gs, platform := platform,
                                refUrl := refUrl,
                                selectedThoughtIds := selectedThoughtIds,
                                styleMode := .manual, withImage := false }
                    content := jsOr t ""
                    audit := auditCopyContent (jsOr t "") platform oracle
                    imageUrl := none
                    createdAt := now }) := by
  refine ⟨fun copyText niche t h parts himg hall => ?_, fun t h e himg => ?_, fun t h => ?_⟩
  · simp only [generateImageForCopy, h, himg]
    rw [List.findSome?_eq_none_iff.mpr hall]
  · simp [handleGenerateResult, generateViralCopy, h, himg]
  · simp [handleGenerateResult, generateViralCopy, h]

/-- C4 witness: an image response with one payload-free part makes the
image step fail with `"No image data found"`, and the cycle still
completes with a record carrying no image. -/
theorem image_failure_nonfatal_witness :
    generateImageForCopy "广告文案" .FOOD (fun _ => .ok (some "广告文案"))
        (fun _ => .ok [⟨none⟩]) = .error "No image data found"
      ∧ (handleGenerateResult ⟨.FOOD, "真诚自然", none, none⟩ .XIAOHONGSHU "" true [] []
            "草稿" (fun _ => .ok (some "广告文案")) (fun _ => .ok [⟨none⟩])
            "id-1" 42).map (fun rec => rec.imageUrl) = .ok none := by
  have h1 := (image_failure_nonfatal ⟨.FOOD, "真诚自然", none, none⟩ .XIAOHONGSHU "" [] []
      "草稿" (fun _ => .ok (some "广告文案")) (fun _ => .ok [⟨none⟩]) "id-1" 42).1
    "广告文案" .FOOD (some "广告文案") rfl [⟨none⟩] rfl (by decide)
  have h2 := (image_failure_nonfatal ⟨.FOOD, "真诚自然", none, none⟩ .XIAOHONGSHU "" [] []
      "草稿" (fun _ => .ok (some "广告文案")) (fun _ => .ok [⟨none⟩]) "id-1" 42).2.1
    (some "广告文案") rfl "No image data found" h1
  exact ⟨h1, by rw [h2]; rfl⟩

/-! ## Claim C5: re-audit frame -/

/-- C5: re-audit replaces only `content` and `audit` in the existing
record — `id`, `config`, `createdAt` and `imageUrl` are untouched — it
performs no copy regeneration and no image synthesis (its embedding
consults only the audit round trip), and against a fixed deterministic
oracle re-auditing the same text again changes nothing: the two audits
are identical. -/
theorem reaudit_frame (c : GeneratedCopy) (txt : String) (p : PlatformType)
    (oracle : Oracle) :
    handleReAudit (some c) txt p oracle
        = some { c with content := txt, audit := auditCopyContent txt p oracle }
      ∧ handleReAudit (handleReAudit (some c) txt p oracle) txt p oracle
        = handleReAudit (some c) txt p oracle
      ∧ ({ c with content := txt, audit := auditCopyContent txt p oracle }
          : GeneratedCopy).id = c.id
      ∧ ({ c with content := txt, audit := auditCopyContent txt p oracle }
          : GeneratedCopy).config = c.config
      ∧ ({ c with content := txt, audit := auditCopyContent txt p oracle }
          : GeneratedCopy).createdAt = c.createdAt
      ∧ ({ c with content := txt, audit := auditCopyContent txt p oracle }
          : GeneratedCopy).imageUrl = c.imageUrl :=
  ⟨rfl, rfl, rfl, rfl, rfl, rfl⟩

/-! ## Claim C6: base draft priority -/

/-- C6: a base draft whose trimmed text is non-empty is embedded
verbatim after the fixed header and the content source is computed
without consulting the fragment list or the selection at all (the
formal reading of "contains none of the selected fragments' text");
with the draft absent or blank the content source is built from
exactly the selected fragments' tag-annotated text. -/
theorem base_draft_priority (selectedThoughtIds ids2 : List String)
    (thoughts thoughts2 : List Thought) (b : String) (h : jsTrim b ≠ "") :
    contentSource selectedThoughtIds thoughts (some b)
        = "基础草稿内容 (请基于此内容进行优化和格式化):\n" ++ b
      ∧ contentSource selectedThoughtIds thoughts (some b)
        = contentSource ids2 thoughts2 (some b)
      ∧ contentSource selectedThoughtIds thoughts none
        = fragmentSource selectedThoughtIds thoughts
      ∧ (∀ b2, jsTrim b2 = "" → contentSource selectedThoughtIds thoughts (some b2)
          = fragmentSource selectedThoughtIds thoughts) :=
  ⟨by simp [contentSource, h], by simp [contentSource, h], rfl,
   fun b2 h2 => by simp [contentSource, h2]⟩

/-- C6 witness: a concrete non-blank draft wins over a concrete
selected fragment, and the source is the header plus the draft
verbatim. -/
theorem base_draft_priority_witness :
    contentSource ["1"] [⟨"1", "碎片想法", ["生活"], 0⟩] (some "一段草稿")
        = "基础草稿内容 (请基于此内容进行优化和格式化):\n" ++ "一段草稿"
      ∧ contentSource ["1"] [⟨"1", "碎片想法", ["生活"], 0⟩] (some "一段草稿")
        = contentSource [] [] (some "一段草稿") :=
  ⟨(base_draft_priority ["1"] [] [⟨"1", "碎片想法", ["生活"], 0⟩] [] "一段草稿"
      (by decide)).1,
   (base_draft_priority ["1"] [] [⟨"1", "碎片想法", ["生活"], 0⟩] [] "一段草稿"
      (by decide)).2.1⟩

/-! ## Claim C7: platform determines language -/

/-- C7: the language line of the assembled user prompt requests English
exactly for TikTok, Instagram and X and Simplified Chinese for every
other platform, and that line occurs inside the user prompt sent for
copy generation. -/
theorem platform_determines_language (config : GenerationConfig) (thoughts : List Thought)
    (baseContent : Option String) :
    langLine config.platform
        = (if config.platform = .TIKTOK ∨ config.platform = .INSTAGRAM
              ∨ config.platform = .X
           then "    1. 语言: English.\n"
           else "    1. 语言: 简体中文 (Simplified Chinese).\n")
      ∧ (langLine config.platform).data <:+: (viralUserPrompt config thoughts baseContent).data := by
  constructor
  · cases h : config.platform <;> decide
  · have hsplit : (viralUserPrompt config thoughts baseContent).data
        = (viralPromptHead config thoughts baseContent).data
          ++ ((langLine config.platform).data ++ (viralPromptTail config).data) := by
      simp [viralUserPrompt, String.data_append]
    rw [hsplit]
    exact ⟨(viralPromptHead config thoughts baseContent).data,
           (viralPromptTail config).data, by simp⟩

/-! ## Claim C8: alternate-provider HTTP error semantics -/

/-- C8 (amended): for the OpenAI-style adapter a non-2xx response is a
hard failure whose error text carries the HTTP status code — the
response body is only logged, not attached to the error — and a 2xx
response that parses but yields no text payload along the content path
returns the empty string rather than failing. -/
theorem openai_error_semantics (r : HttpResponse) (e : String) :
    callOpenAICompatible (.error e) = .error e
      ∧ (r.ok = false →
          callOpenAICompatible (.ok r) = .error ("API Error: " ++ toString r.status))
      ∧ (∀ v, r.ok = true → jsonParse r.body = some v → openAIContent v = none →
          callOpenAICompatible (.ok r) = .ok "") :=
  ⟨rfl,
   fun h => by simp [callOpenAICompatible, h],
   fun v h hp hc => by simp [callOpenAICompatible, h, hp, hc, jsOr]⟩

/-- C8 counterexample: two non-2xx responses differing only in their
bodies produce the *same* error, equal to the status-only message, and
the body text is not an infix of that message: the raised error does
not carry the response body the claim promises. -/
theorem openai_error_lacks_body :
    callOpenAICompatible (.ok ⟨false, 500, "upstream exploded"⟩)
        = callOpenAICompatible (.ok ⟨false, 500, ""⟩)
      ∧ callOpenAICompatible (.ok ⟨false, 500, "upstream exploded"⟩)
        = .error "API Error: 500"
      ∧ ¬ ("upstream exploded".data <:+: "API Error: 500".data) :=
  ⟨rfl, rfl, by decide⟩

/-- C8 witness: concrete non-2xx failure carrying the status, and a
concrete empty-payload success returning the empty string. -/
theorem openai_error_semantics_witness :
    callOpenAICompatible (.ok ⟨false, 404, "missing"⟩) = .error "API Error: 404"
      ∧ callOpenAICompatible (.ok ⟨true, 200, "\x7b\x7d"⟩) = .ok "" :=
  ⟨(openai_error_semantics ⟨false, 404, "missing"⟩ "x").2.1 rfl,
   (openai_error_semantics ⟨true, 200, "\x7b\x7d"⟩ "x").2.2 (Js.obj []) rfl rfl rfl⟩

/-! ## Claim C10: provider routing -/

/-- C10: the audit, style-analysis, fragment-consolidation and both
image-synthesis requests are always addressed to the primary (Gemini)
backend whatever provider is configured, while the tagging and
copy-generation requests follow the configured provider — Gemini when
it is absent or explicitly primary, the alternate backends otherwise. -/
theorem provider_routing (content exampleText copyText prompt tagText : String)
    (platform : PlatformType) (niche : NicheType) (thoughts : List Thought)
    (cfg : GenerationConfig) (baseContent : Option String) :
    (auditRequest content platform).backend = .gemini
      ∧ (analyzeStyleRequest exampleText).backend = .gemini
      ∧ (smartOrganizeRequest thoughts).backend = .gemini
      ∧ (imagePromptRequest copyText niche).backend = .gemini
      ∧ (imageRequest prompt).backend = .gemini
      ∧ (generateTextRequest tagSystemPrompt (tagUserPrompt tagText) none none).backend
          = .gemini
      ∧ (generateTextRequest tagSystemPrompt (tagUserPrompt tagText)
          (some .gemini) none).backend = .gemini
      ∧ (generateTextRequest tagSystemPrompt (tagUserPrompt tagText)
          (some .deepseek) none).backend = .deepseek
      ∧ (generateTextRequest tagSystemPrompt (tagUserPrompt tagText)
          (some .qwen) none).backend = .qwen
      ∧ (viralCopyRequest { cfg with aiProvider := none } thoughts baseContent).backend
          = .gemini
      ∧ (viralCopyRequest { cfg with aiProvider := some .gemini } thoughts
          baseContent).backend = .gemini
      ∧ (viralCopyRequest { cfg with aiProvider := some .deepseek } thoughts
          baseContent).backend = .deepseek
      ∧ (viralCopyRequest { cfg with aiProvider := some .qwen } thoughts
          baseContent).backend = .qwen := by
  refine ⟨rfl, rfl, rfl, rfl, rfl, rfl, rfl, rfl, rfl, ?_, ?_, ?_, ?_⟩ <;>
    simp [viralCopyRequest, generateTextRequest, Option.getD]

end ViralCN
